import Mathlib

/-!
Verification of the autograder `script/grade.cjs` (black-box grading harness
for an Express lab).  The JavaScript source is shallowly embedded: JS numbers
that only ever hold integers become `Int`/`Nat`, JSON values become an
inductive `Json`, a `fetch` response becomes a `Response` record, fallible
operations return `Option`/`Except`, and the nondeterministic environment
(what the network and filesystem answer) is passed in explicitly.
-/

namespace Grade

/-- A JSON value, as produced by `res.json()`. -/
inductive Json where
  | null : Json
  | bool (b : Bool) : Json
  | num (n : Int) : Json
  | str (s : String) : Json
  | arr (elems : List Json) : Json
  | obj (fields : List (String × Json)) : Json

/-- An HTTP response as seen through `fetch`: its status code and its body.
`body = some j` models a body whose `res.clone().json()` parses to `j`;
`body = none` models a body for which `json()` throws. -/
structure Response where
  status : Nat
  body : Option Json

/-- `res.ok` per the WHATWG fetch spec: status in the range 200..299. -/
def Response.ok (r : Response) : Bool :=
  decide (200 ≤ r.status) && decide (r.status < 300)

/-- JS truthiness of a parsed JSON value (`if (j) ...`).  Objects and arrays
are always truthy; `null`, `false`, `0` and `""` are falsy. -/
def jsTruthy : Json → Bool
  | .null => false
  | .bool b => b
  | .num n => !(n == 0)
  | .str s => !(s == "")
  | .arr _ => true
  | .obj _ => true

/-- JS member access `j.key` on a parsed JSON value: `some v` when `j` is an
object with that key, `none` (undefined) otherwise. -/
def Json.getField : Json → String → Option Json
  | .obj fields, k => (fields.find? (fun kv => kv.1 == k)).map (fun kv => kv.2)
  | _, _ => none

/-- The JS `"key" in j` test, used only after `j` is known to be an object. -/
def hasKey (j : Json) (k : String) : Bool := (j.getField k).isSome

/-- `typeof j.key === "string"`. -/
def fieldIsString (j : Json) (k : String) : Bool :=
  match j.getField k with
  | some (.str _) => true
  | _ => false

-- --------------------- safeFetch (lines 33-44) ---------------------

/-- The ways the underlying `fetch(url, {signal})` promise can settle inside
`safeFetch`'s `try` block. -/
inductive FetchError where
  | connRefused : FetchError
  | dnsFailure : FetchError
  | protocolError : FetchError
  | abortedExternally : FetchError
deriving DecidableEq

/-- What the network does for one `safeFetch` call: the request either
completes with a response before the timer fires, rejects with some error
before the timer fires, or is still pending when the timeout elapses. -/
inductive RawOutcome where
  | completed (r : Response) : RawOutcome
  | errored (e : FetchError) : RawOutcome
  | timedOut : RawOutcome

/-- Embedding of `safeFetch` (grade.cjs lines 33-44).  The first component is
`Except FetchError (Option Response)`: `.ok v` models a normal return of `v`
(`null` is `none`), `.error e` would model the call throwing `e` — which the
`try { ... } catch { return null; }` makes impossible.  The second component
records whether `controller.abort()` was invoked (the `setTimeout` handler
fired because the request was still in flight at the deadline). -/
def safeFetch (o : RawOutcome) : Except FetchError (Option Response) × Bool :=
  match o with
  | .completed r => (Except.ok (some r), false)
  | .errored _ => (Except.ok none, false)
  | .timedOut => (Except.ok none, true)

-- --------------------- scores (lines 52-58) ---------------------

/-- One TODO's accumulating score record (`makeTodoScore`). -/
structure TodoScore where
  completeness : Int
  correctness : Int
  quality : Int
  notes : List String
deriving DecidableEq

/-- `makeTodoScore()` (line 52). -/
def makeTodoScore : TodoScore :=
  { completeness := 0, correctness := 0, quality := 0, notes := [] }

/-- `clamp(n, a, b)` (line 55). -/
def clamp (n a b : Int) : Int := max a (min b n)

/-- `bandPoints(s)` (lines 56-58): each sub-score independently clamped to
its band, then summed. -/
def bandPoints (s : TodoScore) : Int :=
  clamp s.completeness 0 8 + clamp s.correctness 0 4 + clamp s.quality 0 4

/-- The lab-total floor rule (lines 367-369): starting from the raw sum of
the five group totals, if some group total is strictly positive and the sum
is below 60, the total becomes exactly 60. -/
def labPointsFinal (p1 p2 p3 p4 p5 : Int) : Int :=
  if ([p1, p2, p3, p4, p5].any (fun x => decide (x > 0)))
      && decide (p1 + p2 + p3 + p4 + p5 < 60)
  then 60 else p1 + p2 + p3 + p4 + p5

-- --------------------- startStudentApp (lines 87-137) ---------------------

/-- `ENTRY_CANDIDATES` (lines 87-95): the ranked entry-file names. -/
def ENTRY_CANDIDATES : List String :=
  ["server.js", "app.js", "index.js", "main.js",
   "src/server.js", "src/app.js", "src/index.js"]

/-- The lab directory as the launcher observes it.  `fileExists p` models
`fs.existsSync(path.join(LAB_DIR, p))`; `pkgStart` models "package.json
parses and `pkg.scripts && pkg.scripts.start` is truthy" (lines 104-109;
a parse failure is caught and yields `false`). -/
structure LabDir where
  fileExists : String → Bool
  pkgStart : Bool

/-- `hasStart` (lines 103-109): a start script exists only when
`package.json` exists and declares one. -/
def hasStart (d : LabDir) : Bool := d.fileExists "package.json" && d.pkgStart

/-- The command a launch strategy spawns. -/
inductive SpawnCmd where
  | node (entry : String) : SpawnCmd
  | npmStart : SpawnCmd
deriving DecidableEq

/-- The part of `startStudentApp`'s return value the launch strategy decides:
the spawned child (if any) and `usedCommand`.  The stdout/stderr buffers and
the log-sniffed `detectedPort` are real-time artifacts of the child and are
carried separately as environment inputs. -/
structure StartResult where
  child : Option SpawnCmd
  usedCommand : String
deriving DecidableEq

/-- Embedding of the launch-strategy part of `startStudentApp`
(lines 97-138): first existing ranked entry file (`ENTRY_CANDIDATES.find`),
else a declared start script, else the hardcoded `server.js`, else no child
and the `(no entry found)` command. -/
def startStudentApp (d : LabDir) : StartResult :=
  match ENTRY_CANDIDATES.find? d.fileExists with
  | some entry => { child := some (SpawnCmd.node entry), usedCommand := "node " ++ entry }
  | none =>
    if hasStart d then
      { child := some SpawnCmd.npmStart, usedCommand := "npm start" }
    else if d.fileExists "server.js" then
      { child := some (SpawnCmd.node "server.js"), usedCommand := "node server.js" }
    else
      { child := none, usedCommand := "(no entry found)" }

-- --------------------- findBaseUrl (lines 166-179) ---------------------

/-- `SCAN_PORTS` (line 26): ports 3000..3023. -/
def SCAN_PORTS : List Nat := (List.range 24).map (fun i => 3000 + i)

/-- The loop `for (const p of SCAN_PORTS) if (!candidates.includes(p))
candidates.push(p)` (line 169), folded over the scan list. -/
def addScan (acc : List Nat) : List Nat → List Nat
  | [] => acc
  | p :: rest => addScan (if acc.contains p then acc else acc ++ [p]) rest

/-- The candidate port list of `findBaseUrl` (lines 167-169): the sniffed
port first when truthy (`if (detectedPort)` — port 0 is falsy in JS), then
the scan range with duplicates skipped. -/
def candidatePorts (detectedPort : Option Nat) : List Nat :=
  let first := match detectedPort with
    | some p => if p != 0 then [p] else []
    | none => []
  addScan first SCAN_PORTS

/-- The network as discovery observes it: for each candidate port, what
`safeFetch("http://127.0.0.1:<port>/")` returns (`none` = unreachable). -/
def DiscoveryEnv : Type := Nat → Option Response

/-- The base URL string built for an accepted port (lines 172, 175). -/
def baseUrlOfPort (p : Nat) : String := "http://127.0.0.1:" ++ toString p

/-- The acceptance test of line 174: `res && (res.ok || res.status === 404)`. -/
def acceptResp : Option Response → Bool
  | some r => r.ok || r.status == 404
  | none => false

/-- The probing loop of lines 171-178: first accepted candidate wins. -/
def findLoop (env : DiscoveryEnv) : List Nat → Option String
  | [] => none
  | p :: rest =>
    if acceptResp (env p) then some (baseUrlOfPort p) else findLoop env rest

/-- Embedding of `findBaseUrl` (lines 166-179). -/
def findBaseUrl (env : DiscoveryEnv) (detectedPort : Option Nat) : Option String :=
  findLoop env (candidatePorts detectedPort)

/-- The acceptance test as the claim words it: status exactly 200 or 404
(for comparison with `acceptResp`, which uses `res.ok`, i.e. 200..299). -/
def acceptStated : Option Response → Bool
  | some r => r.status == 200 || r.status == 404
  | none => false

/-- `findBaseUrl` as the claim describes it: same candidate order, but a
candidate is accepted only when its status is exactly 200 or 404. -/
def findLoopStated (env : DiscoveryEnv) : List Nat → Option String
  | [] => none
  | p :: rest =>
    if acceptStated (env p) then some (baseUrlOfPort p) else findLoopStated env rest

/-- The claim-worded discovery function, compared against `findBaseUrl`. -/
def findBaseUrlStated (env : DiscoveryEnv) (detectedPort : Option Nat) : Option String :=
  findLoopStated env (candidatePorts detectedPort)

/-- A network where every port answers 204 No Content with no JSON body:
reachable, `ok` in the fetch sense, but neither 200 nor 404. -/
def envAll204 : DiscoveryEnv := fun _ => some { status := 204, body := none }

-- --------------------- checks (lines 182-331) ---------------------

/-- `checkTodo1` (lines 182-203): the root route.  Its input is what
`safeFetch(base + "/")` returned. -/
def checkTodo1 (res : Option Response) : TodoScore :=
  match res with
  | some r =>
    let s := { makeTodoScore with
               completeness := (8 : Int),
               notes := ["✅ Server responded on `/`."] }
    let s := if r.status == 200 then
        { s with correctness := 4, notes := s.notes ++ ["✅ `/` returned 200."] }
      else
        { s with notes := s.notes ++ ["⚠️ `/` returned status " ++ toString r.status ++ "."] }
    match r.body with
    | some _ => { s with quality := 4, notes := s.notes ++ ["✅ `/` returned JSON."] }
    | none => { s with notes := s.notes ++ ["⚠️ `/` did not return JSON."] }
  | none => { makeTodoScore with notes := ["❌ No response from `/`."] }

/-- The `/echo` success-shape test (line 215):
`j && j.ok === true && "name" in j && "age" in j && typeof j.msg === "string"`. -/
def echoSuccessShape (j : Json) : Bool :=
  jsTruthy j
    && (match j.getField "ok" with | some (.bool true) => true | _ => false)
    && hasKey j "name" && hasKey j "age" && fieldIsString j "msg"

/-- The error-shape test used by `/echo` and `/users` (lines 232, 296, 313):
`j && j.ok === false && typeof j.error === "string"`. -/
def errorShape (j : Json) : Bool :=
  jsTruthy j
    && (match j.getField "ok" with | some (.bool false) => true | _ => false)
    && fieldIsString j "error"

/-- `checkTodo2` (lines 205-246): the `/echo` route, one probe for the
success case (`?name=Ali&age=22`) and one for the missing-parameter case
(`?name=Ali`), then each band clamped with `Math.min`. -/
def checkTodo2 (okRes badRes : Option Response) : TodoScore :=
  let s := makeTodoScore
  let s := match okRes with
    | some r =>
      let s := { s with completeness := s.completeness + 4 }
      let s := if r.status == 200 then
          { s with
              correctness := s.correctness + 2,
              notes := s.notes ++ ["✅ `/echo` success returned 200."] }
        else s
      match r.body with
      | some j =>
        if echoSuccessShape j then
          { s with
              quality := s.quality + 2,
              notes := s.notes ++ ["✅ `/echo` success JSON has ok/name/age/msg."] }
        else
          { s with notes := s.notes ++ ["⚠️ `/echo` success JSON shape differs (accepted)."] }
      | none => { s with notes := s.notes ++ ["⚠️ `/echo` success not JSON."] }
    | none => { s with notes := s.notes ++ ["❌ GET `/echo` not reachable."] }
  let s := match badRes with
    | some r =>
      let s := { s with completeness := s.completeness + 4 }
      let s := if r.status == 400 then
          { s with
              correctness := s.correctness + 2,
              notes := s.notes ++ ["✅ `/echo` error returned 400."] }
        else s
      match r.body with
      | some j =>
        if errorShape j then
          { s with
              quality := s.quality + 2,
              notes := s.notes ++ ["✅ `/echo` error JSON has ok:false + error."] }
        else
          { s with notes := s.notes ++ ["⚠️ `/echo` error JSON shape differs (accepted)."] }
      | none => { s with notes := s.notes ++ ["⚠️ `/echo` error not JSON."] }
    | none => { s with notes := s.notes ++ ["❌ GET `/echo` missing-param case not reachable."] }
  { s with
      completeness := min 8 s.completeness,
      correctness := min 4 s.correctness, quality := min 4 s.quality }

/-- The `/profile` shape test (line 256):
`j && j.ok === true && typeof j.fullName === "string"`. -/
def profileShape (j : Json) : Bool :=
  jsTruthy j
    && (match j.getField "ok" with | some (.bool true) => true | _ => false)
    && fieldIsString j "fullName"

/-- `checkTodo3` (lines 248-266): the `/profile/Jack/Black` probe. -/
def checkTodo3 (res : Option Response) : TodoScore :=
  match res with
  | some r =>
    let s := { makeTodoScore with
               completeness := (8 : Int),
               notes := ["✅ `/profile/:first/:last` reachable."] }
    let s := if r.status == 200 then
        { s with correctness := 4, notes := s.notes ++ ["✅ `/profile` returned 200."] }
      else s
    match r.body with
    | some j =>
      if profileShape j then
        { s with
            quality := 4,
            notes := s.notes ++ ["✅ `/profile` JSON contains ok:true and fullName."] }
      else
        { s with notes := s.notes ++ ["⚠️ `/profile` JSON shape differs (accepted)."] }
    | none => { s with notes := s.notes ++ ["⚠️ `/profile` not JSON."] }
  | none => { makeTodoScore with notes := ["❌ GET `/profile/:first/:last` not reachable."] }

/-- The `/users` success-shape test (line 279):
`j && j.ok === true && ("userId" in j)`. -/
def usersSuccessShape (j : Json) : Bool :=
  jsTruthy j
    && (match j.getField "ok" with | some (.bool true) => true | _ => false)
    && hasKey j "userId"

/-- `checkTodo4and5` (lines 268-331): `/users/42` feeds TODO 5; the two
invalid ids (non-numeric `abc` and negative `-5`) feed TODO 4; both scores
are then clamped with `Math.min`.  Returns `(s4, s5)`. -/
def checkTodo4and5 (goodRes bad1Res bad2Res : Option Response) : TodoScore × TodoScore :=
  let s4 := makeTodoScore
  let s5 := makeTodoScore
  let s5 := match goodRes with
    | some r =>
      let s5 := { s5 with
                  completeness := s5.completeness + 8,
                  notes := s5.notes ++ ["✅ `/users/:userId` reachable with valid id."] }
      let s5 := if r.status == 200 then
          { s5 with
              correctness := s5.correctness + 4,
              notes := s5.notes ++ ["✅ `/users` valid returned 200."] }
        else s5
      match r.body with
      | some j =>
        if usersSuccessShape j then
          { s5 with
              quality := s5.quality + 4,
              notes := s5.notes ++ ["✅ `/users` success JSON contains ok:true and userId."] }
        else
          { s5 with notes := s5.notes ++ ["⚠️ `/users` success JSON shape differs (accepted)."] }
      | none => { s5 with notes := s5.notes ++ ["⚠️ `/users` success not JSON."] }
    | none => { s5 with notes := s5.notes ++ ["❌ GET `/users/:userId` not reachable."] }
  let s4 := match bad1Res with
    | some r =>
      let s4 := { s4 with completeness := s4.completeness + 4 }
      let s4 := if r.status == 400 then
          { s4 with
              correctness := s4.correctness + 2,
              notes := s4.notes ++ ["✅ Param middleware rejected non-numeric id with 400."] }
        else s4
      match r.body with
      | some j =>
        if errorShape j then
          { s4 with
              quality := s4.quality + 2,
              notes := s4.notes ++ ["✅ Error JSON includes ok:false + error."] }
        else
          { s4 with notes := s4.notes ++ ["⚠️ Error JSON shape (non-numeric) differs (accepted)."] }
      | none => { s4 with notes := s4.notes ++ ["⚠️ Error (non-numeric) not JSON."] }
    | none => { s4 with notes := s4.notes ++ ["❌ `/users/abc` path not reachable (param middleware not observed)."] }
  let s4 := match bad2Res with
    | some r =>
      let s4 := { s4 with completeness := s4.completeness + 4 }
      let s4 := if r.status == 400 then
          { s4 with
              correctness := s4.correctness + 2,
              notes := s4.notes ++ ["✅ Param middleware rejected negative id with 400."] }
        else s4
      match r.body with
      | some j =>
        if errorShape j then
          { s4 with
              quality := s4.quality + 2,
              notes := s4.notes ++ ["✅ Error JSON includes ok:false + error (negative)."] }
        else
          { s4 with notes := s4.notes ++ ["⚠️ Error JSON shape (negative) differs (accepted)."] }
      | none => { s4 with notes := s4.notes ++ ["⚠️ Error (negative) not JSON."] }
    | none => { s4 with notes := s4.notes ++ ["❌ `/users/-5` path not reachable (param middleware not observed)."] }
  ({ s4 with
     completeness := min 8 s4.completeness,
     correctness := min 4 s4.correctness,
     quality := min 4 s4.quality },
   { s5 with
     completeness := min 8 s5.completeness,
     correctness := min 4 s5.correctness,
     quality := min 4 s5.quality })

-- --------------------- main flow (lines 334-468) ---------------------

/-- What the network answers for each of the seven scripted probes (one
field per `safeFetch` call the five checks make). -/
structure ProbeEnv where
  root : Option Response
  echoGood : Option Response
  echoBad : Option Response
  profile : Option Response
  usersValid : Option Response
  usersAlpha : Option Response
  usersNegative : Option Response

/-- Lines 340-359: the five scores start as `makeTodoScore()`; when a base
URL was discovered the checks run, otherwise each score only receives its
"Server not reachable" note. -/
def mainScores (baseUrl : Option String) (pe : ProbeEnv) :
    TodoScore × TodoScore × TodoScore × TodoScore × TodoScore :=
  match baseUrl with
  | some _ =>
    let r := checkTodo4and5 pe.usersValid pe.usersAlpha pe.usersNegative
    (checkTodo1 pe.root, checkTodo2 pe.echoGood pe.echoBad,
     checkTodo3 pe.profile, r.1, r.2)
  | none =>
    ({ makeTodoScore with notes := ["Server not reachable; cannot run endpoint checks."] },
     { makeTodoScore with notes := ["Server not reachable."] },
     { makeTodoScore with notes := ["Server not reachable."] },
     { makeTodoScore with notes := ["Server not reachable."] },
     { makeTodoScore with notes := ["Server not reachable."] })

/-- One termination signal the cleanup block (lines 458-468) can send. -/
inductive KillAttempt where
  | taskkill (pid : Nat) : KillAttempt
  | killGroup (pid : Nat) : KillAttempt
  | killPid (pid : Nat) : KillAttempt
deriving DecidableEq

/-- One `try { process.kill(...) } catch {}`: the attempt is recorded and
the possible `ESRCH`-style failure is produced — and then discarded by the
empty `catch`, so it can never influence what happens next. -/
def tryKillSwallow (a : KillAttempt) (fails : Bool) : List KillAttempt × Option String :=
  ([a], if fails then some "kill failed" else none)

/-- The cleanup block (lines 458-468): only a spawned child with a truthy
pid is signalled; on win32 a single `taskkill /t`, otherwise the process
group first and then the pid directly, each wrapped in its own
failure-swallowing `try`.  Returns the ordered list of attempts made. -/
def cleanupKills (child : Option SpawnCmd) (pid : Nat) (isWin : Bool)
    (groupFails pidFails : Bool) : List KillAttempt :=
  match child with
  | none => []
  | some _ =>
    if pid != 0 then
      if isWin then [KillAttempt.taskkill pid]
      else
        let (t1, e1) := tryKillSwallow (KillAttempt.killGroup pid) groupFails
        let (t2, e2) := tryKillSwallow (KillAttempt.killPid pid) pidFails
        -- e1 and e2 are dropped: the empty catch blocks swallow them
        let _ := e1
        let _ := e2
        t1 ++ t2
    else []

/-- Everything outside the harness that one grading run observes. -/
structure GradeEnv where
  lab : LabDir
  detectedPort : Option Nat
  discovery : DiscoveryEnv
  probes : ProbeEnv
  childPid : Nat
  isWin : Bool
  killGroupFails : Bool
  killPidFails : Bool
  late : Bool

/-- The `scoring` object of the report (lines 396-401). -/
structure ScoringReport where
  p1 : Int
  p2 : Int
  p3 : Int
  p4 : Int
  p5 : Int
  lab_points : Int
  submission_points : Int
  total_points : Int
deriving DecidableEq

/-- What one run of the main IIFE produces: the five frozen scores, the
scoring report, discovery metadata, and the ordered termination attempts. -/
structure RunResult where
  scores : TodoScore × TodoScore × TodoScore × TodoScore × TodoScore
  report : ScoringReport
  baseUrl : Option String
  usedCommand : String
  killTrace : List KillAttempt

/-- Embedding of the main IIFE (lines 334-468): launch, discover, probe,
aggregate with the floor rule, compute submission points (line 371 — the
`isLate ? ...` guard on the always-truthy function reference reduces to
`isLate()`), and finally run the cleanup block.  Every phase is total: all
network and child-process failures arrive as data (`none` values), so the
run always reaches the cleanup step and always produces a report. -/
def gradeRun (e : GradeEnv) : RunResult :=
  let startInfo := startStudentApp e.lab
  let baseUrl := findBaseUrl e.discovery e.detectedPort
  let ts := mainScores baseUrl e.probes
  let p1 := bandPoints ts.1
  let p2 := bandPoints ts.2.1
  let p3 := bandPoints ts.2.2.1
  let p4 := bandPoints ts.2.2.2.1
  let p5 := bandPoints ts.2.2.2.2
  let labPoints := labPointsFinal p1 p2 p3 p4 p5
  let subPoints : Int := if e.late then 10 else 20
  { scores := ts,
    report := { p1 := p1, p2 := p2, p3 := p3, p4 := p4, p5 := p5,
                lab_points := labPoints, submission_points := subPoints,
                total_points := labPoints + subPoints },
    baseUrl := baseUrl,
    usedCommand := startInfo.usedCommand,
    killTrace := cleanupKills startInfo.child e.childPid e.isWin
      e.killGroupFails e.killPidFails }

-- --------------------- concrete environments used by witnesses ---------------------

/-- A lab directory with no files at all. -/
def labEmpty : LabDir := { fileExists := fun _ => false, pkgStart := false }

/-- A lab directory containing exactly `server.js`. -/
def labServerOnly : LabDir := { fileExists := fun s => s == "server.js", pkgStart := false }

/-- A lab directory containing exactly `app.js`. -/
def labAppOnly : LabDir := { fileExists := fun s => s == "app.js", pkgStart := false }

/-- A lab directory with only a `package.json` declaring a start script. -/
def labStartOnly : LabDir := { fileExists := fun s => s == "package.json", pkgStart := true }

/-- A network on which every port is unreachable. -/
def envUnreachable : DiscoveryEnv := fun _ => none

/-- All seven scripted probes unreachable. -/
def probesNone : ProbeEnv :=
  { root := none, echoGood := none, echoBad := none, profile := none,
    usersValid := none, usersAlpha := none, usersNegative := none }

/-- A fully dead grading environment: nothing on disk, nothing listening. -/
def envZero : GradeEnv :=
  { lab := labEmpty, detectedPort := none, discovery := envUnreachable,
    probes := probesNone, childPid := 0, isWin := false,
    killGroupFails := false, killPidFails := false, late := false }

/-- A posix run whose launcher finds `server.js` and spawns pid 7. -/
def envServerRun : GradeEnv :=
  { lab := labServerOnly, detectedPort := none, discovery := envUnreachable,
    probes := probesNone, childPid := 7, isWin := false,
    killGroupFails := false, killPidFails := false, late := false }

/-- The `/echo` success body of the C6 scenario:
`{ok:true, name:"Ali", age:22, msg:"hi"}`. -/
def echoGoodJson : Json :=
  Json.obj [("ok", Json.bool true), ("name", Json.str "Ali"),
            ("age", Json.num 22), ("msg", Json.str "hi")]

/-- The `/echo` missing-parameter body: `{ok:false, error:"missing age"}`. -/
def echoBadJson : Json :=
  Json.obj [("ok", Json.bool false), ("error", Json.str "missing age")]

/-- The C6 `/echo` success response: 200 with
`{ok:true, name:"Ali", age:22, msg:"hi"}`. -/
def echoGoodRes : Response := { status := 200, body := some echoGoodJson }

/-- The C6 `/echo` missing-parameter response: 400 with
`{ok:false, error:"missing age"}`. -/
def echoBadRes : Response := { status := 400, body := some echoBadJson }

-- ===================== theorems =====================

-- helper lemmas (shared; not claim theorems)

theorem contains_eq_decideMem (l : List Nat) (a : Nat) :
    l.contains a = decide (a ∈ l) := by
  simp [List.contains, List.elem_eq_mem]

theorem addScan_eq_append (l : List Nat) (h : l.Nodup) :
    ∀ acc : List Nat, addScan acc l = acc ++ l.filter (fun q => !(acc.contains q)) := by
  induction l with
  | nil => intro acc; simp [addScan]
  | cons p rest ih =>
    intro acc
    rcases List.nodup_cons.mp h with ⟨hp, hrest⟩
    rw [addScan]
    by_cases hc : acc.contains p
    · rw [if_pos hc, ih hrest acc, List.filter_cons_of_neg (by simp_all)]
    · rw [if_neg hc, ih hrest (acc ++ [p]), List.filter_cons_of_pos (by simp_all)]
      rw [List.filter_congr (q := fun q => !(acc.contains q)) ?_]
      · simp
      · intro q hq
        have hqp : q ≠ p := fun he => hp (he ▸ hq)
        simp [contains_eq_decideMem, List.mem_append, hqp]

theorem findLoop_eq_none_iff (env : DiscoveryEnv) (l : List Nat) :
    findLoop env l = none ↔ ∀ p ∈ l, acceptResp (env p) = false := by
  induction l with
  | nil => simp [findLoop]
  | cons p rest ih =>
    by_cases hp : acceptResp (env p) <;> simp [findLoop, hp, ih]

theorem findLoop_eq_some_split (env : DiscoveryEnv) (l : List Nat) (u : String)
    (h : findLoop env l = some u) :
    ∃ l1 p l2, l = l1 ++ p :: l2 ∧ (∀ q ∈ l1, acceptResp (env q) = false) ∧
      acceptResp (env p) = true ∧ u = baseUrlOfPort p := by
  induction l with
  | nil => simp [findLoop] at h
  | cons p rest ih =>
    rw [findLoop] at h
    by_cases hp : acceptResp (env p)
    · rw [if_pos hp] at h
      exact ⟨[], p, rest, rfl, by simp, hp, (Option.some_inj.mp h).symm⟩
    · rw [if_neg hp] at h
      obtain ⟨l1, q, l2, rfl, h1, h2, h3⟩ := ih h
      refine ⟨p :: l1, q, l2, rfl, ?_, h2, h3⟩
      intro x hx
      rcases List.mem_cons.mp hx with rfl | hx
      · simpa using hp
      · exact h1 x hx

theorem find_first_split {α : Type} (p : α → Bool) (l : List α) (e : α)
    (h : l.find? p = some e) :
    p e = true ∧ ∃ l1 l2, l = l1 ++ e :: l2 ∧ ∀ q ∈ l1, p q = false := by
  induction l with
  | nil => simp [List.find?] at h
  | cons a rest ih =>
    by_cases ha : p a
    · rw [List.find?_cons_of_pos _ ha] at h
      simp only [Option.some_inj] at h
      subst h
      exact ⟨ha, [], rest, rfl, by simp⟩
    · rw [List.find?_cons_of_neg _ (by simpa using ha)] at h
      obtain ⟨he, l1, l2, rfl, hall⟩ := ih h
      refine ⟨he, a :: l1, l2, rfl, ?_⟩
      intro q hq
      rcases List.mem_cons.mp hq with rfl | hq
      · simpa using ha
      · exact hall q hq

theorem bandPoints_between (s : TodoScore) : 0 ≤ bandPoints s ∧ bandPoints s ≤ 16 := by
  unfold bandPoints clamp
  omega

-- claim theorems

/-- C1: the lab-total floor rule over the five group totals: a strictly
positive group with a raw sum below 60 floors the total to exactly 60;
all-zero groups give 0; a raw sum of at least 60 is reported unchanged. -/
theorem labPoints_floor_rule (p1 p2 p3 p4 p5 : Int) :
    ((0 < p1 ∨ 0 < p2 ∨ 0 < p3 ∨ 0 < p4 ∨ 0 < p5) →
       p1 + p2 + p3 + p4 + p5 < 60 → labPointsFinal p1 p2 p3 p4 p5 = 60) ∧
    (p1 = 0 → p2 = 0 → p3 = 0 → p4 = 0 → p5 = 0 →
       labPointsFinal p1 p2 p3 p4 p5 = 0) ∧
    (60 ≤ p1 + p2 + p3 + p4 + p5 →
       labPointsFinal p1 p2 p3 p4 p5 = p1 + p2 + p3 + p4 + p5) := by
  unfold labPointsFinal
  refine ⟨?_, ?_, ?_⟩
  all_goals intros
  all_goals split
  all_goals simp_all
  all_goals omega

/-- Witness for C1: a raw total of 42 with progress floors to 60, the
all-zero run stays 0, and a full 80 is unchanged. -/
theorem labPoints_floor_rule_spot :
    labPointsFinal 10 10 10 6 6 = 60 ∧ labPointsFinal 0 0 0 0 0 = 0 ∧
    labPointsFinal 16 16 16 16 16 = 80 := by
  refine ⟨(labPoints_floor_rule 10 10 10 6 6).1 (Or.inl (by norm_num)) (by norm_num),
          (labPoints_floor_rule 0 0 0 0 0).2.1 rfl rfl rfl rfl rfl, ?_⟩
  have h := (labPoints_floor_rule 16 16 16 16 16).2.2 (by norm_num)
  simpa using h

/-- C2: each band is clamped to its range by `bandPoints` whatever the
accumulated sub-scores are, so a group total is at most 16 and the raw lab
total over five groups is at most 80. -/
theorem bandPoints_clamped (s s1 s2 s3 s4 s5 : TodoScore) :
    (0 ≤ clamp s.completeness 0 8 ∧ clamp s.completeness 0 8 ≤ 8) ∧
    (0 ≤ clamp s.correctness 0 4 ∧ clamp s.correctness 0 4 ≤ 4) ∧
    (0 ≤ clamp s.quality 0 4 ∧ clamp s.quality 0 4 ≤ 4) ∧
    (0 ≤ bandPoints s ∧ bandPoints s ≤ 16) ∧
    bandPoints s1 + bandPoints s2 + bandPoints s3 + bandPoints s4 + bandPoints s5 ≤ 80 := by
  have h1 := bandPoints_between s1
  have h2 := bandPoints_between s2
  have h3 := bandPoints_between s3
  have h4 := bandPoints_between s4
  have h5 := bandPoints_between s5
  have h := bandPoints_between s
  refine ⟨?_, ?_, ?_, h, by omega⟩ <;> unfold clamp <;> omega

/-- C4: `safeFetch` never lets the underlying request throw: every raw
outcome yields a normal return, every error collapses to `none`
(Unreachable), and the timeout path both returns `none` and has fired the
abort of the in-flight request. -/
theorem safeFetch_never_throws (o : RawOutcome) (e : FetchError) (r : Response) :
    (∃ v, (safeFetch o).1 = Except.ok v) ∧
    (safeFetch (RawOutcome.errored e)).1 = Except.ok none ∧
    ((safeFetch RawOutcome.timedOut).1 = Except.ok none ∧
       (safeFetch RawOutcome.timedOut).2 = true) ∧
    (safeFetch (RawOutcome.completed r)).1 = Except.ok (some r) := by
  cases o <;> exact ⟨⟨_, rfl⟩, rfl, ⟨rfl, rfl⟩, rfl⟩

/-- Counterexample to C3 as stated: on a network where every port answers
204 (reachable, `ok` in the fetch sense, but neither 200 nor 404),
`findBaseUrl` accepts the very first candidate, while a discovery that only
accepted statuses 200 and 404 — which is what the claim describes — would
have returned a null base URL. -/
theorem findBaseUrl_status_counterexample :
    findBaseUrl envAll204 none = some "http://127.0.0.1:3000" ∧
    findBaseUrlStated envAll204 none = none ∧
    (∀ p ∈ candidatePorts none, acceptStated (envAll204 p) = false) := by
  refine ⟨by decide, by decide, by decide⟩

/-- C3 (amended): the candidate list is the truthy sniffed port first and
then the scan range minus duplicates, and `findBaseUrl` returns the base
URL of the first candidate whose root fetch is reachable with a status that
is `ok` (200..299) or 404, or a null base URL when no candidate qualifies. -/
theorem findBaseUrl_first_accepted (env : DiscoveryEnv) (dp : Option Nat) :
    candidatePorts none = SCAN_PORTS ∧
    (∀ p : Nat, candidatePorts (some p) =
       if p = 0 then SCAN_PORTS
       else p :: SCAN_PORTS.filter (fun q => !(q == p))) ∧
    (match findBaseUrl env dp with
     | none => ∀ p ∈ candidatePorts dp, acceptResp (env p) = false
     | some u => ∃ l1 p l2, candidatePorts dp = l1 ++ p :: l2 ∧
         (∀ q ∈ l1, acceptResp (env q) = false) ∧
         acceptResp (env p) = true ∧ u = baseUrlOfPort p) := by
  have hnodup : SCAN_PORTS.Nodup := by decide
  have hnone : candidatePorts none = SCAN_PORTS := by
    unfold candidatePorts
    rw [addScan_eq_append SCAN_PORTS hnodup []]
    simp
  refine ⟨hnone, ?_, ?_⟩
  · intro p
    unfold candidatePorts
    by_cases hp : p = 0
    · subst hp
      simpa using hnone
    · rw [if_neg hp]
      simp only [show (p != 0) = true by simpa using hp, if_pos]
      rw [addScan_eq_append SCAN_PORTS hnodup [p]]
      have he : ∀ q ∈ SCAN_PORTS, (!([p].contains q)) = (!(q == p)) := by
        intro q _
        simp [contains_eq_decideMem, beq_eq_decide]
      rw [List.filter_congr he]
      simp
  · cases h : findBaseUrl env dp with
    | none =>
      exact (findLoop_eq_none_iff env (candidatePorts dp)).mp h
    | some u =>
      exact findLoop_eq_some_split env (candidatePorts dp) u h

/-- Witness for C3 (amended): with sniffed port 3100 the candidate list is
3100 followed by the deduplicated scan range. -/
theorem findBaseUrl_first_accepted_spot :
    candidatePorts (some 3100) = 3100 :: SCAN_PORTS.filter (fun q => !(q == 3100)) := by
  simpa using (findBaseUrl_first_accepted envAll204 (some 3100)).2.1 3100

/-- C6: on the scripted perfect `/echo` answers, the echo group scores
completeness 8, correctness 4, quality 4 — the maximum 16 points. -/
theorem echo_group_full_marks :
    (checkTodo2 (some echoGoodRes) (some echoBadRes)).completeness = 8 ∧
    (checkTodo2 (some echoGoodRes) (some echoBadRes)).correctness = 4 ∧
    (checkTodo2 (some echoGoodRes) (some echoBadRes)).quality = 4 ∧
    bandPoints (checkTodo2 (some echoGoodRes) (some echoBadRes)) = 16 := by
  refine ⟨by decide, by decide, by decide, by decide⟩

/-- C7: once a probe's fetch is reachable, its full completeness
contribution is awarded — for every group, the completeness sub-score is a
function of which probes were reachable only, never of their status codes,
bodies, or JSON shapes (those touch only correctness and quality). -/
theorem completeness_only_reachability (a g b p ug ua un : Option Response) :
    (checkTodo1 a).completeness = (if a.isSome then (8 : Int) else 0) ∧
    (checkTodo2 g b).completeness =
      (if g.isSome then (4 : Int) else 0) + (if b.isSome then (4 : Int) else 0) ∧
    (checkTodo3 p).completeness = (if p.isSome then (8 : Int) else 0) ∧
    ((checkTodo4and5 ug ua un).2).completeness = (if ug.isSome then (8 : Int) else 0) ∧
    ((checkTodo4and5 ug ua un).1).completeness =
      (if ua.isSome then (4 : Int) else 0) + (if un.isSome then (4 : Int) else 0) := by
  refine ⟨?_, ?_, ?_, ?_, ?_⟩
  · cases a
    all_goals simp only [checkTodo1, makeTodoScore, apply_ite TodoScore.completeness,
      Option.isSome_some, Option.isSome_none]
    all_goals repeat' split
    all_goals simp_all
  · cases g <;> cases b
    all_goals simp only [checkTodo2, makeTodoScore, apply_ite TodoScore.completeness,
      Option.isSome_some, Option.isSome_none]
    all_goals repeat' split
    all_goals simp_all
  · cases p
    all_goals simp only [checkTodo3, makeTodoScore, apply_ite TodoScore.completeness,
      Option.isSome_some, Option.isSome_none]
    all_goals repeat' split
    all_goals simp_all
  · cases ug <;> cases ua <;> cases un
    all_goals simp only [checkTodo4and5, makeTodoScore, apply_ite TodoScore.completeness,
      Option.isSome_some, Option.isSome_none]
    all_goals repeat' split
    all_goals simp_all
  · cases ug <;> cases ua <;> cases un
    all_goals simp only [checkTodo4and5, makeTodoScore, apply_ite TodoScore.completeness,
      Option.isSome_some, Option.isSome_none]
    all_goals repeat' split
    all_goals simp_all

/-- C5: when discovery returns a null base URL, no check runs: every group
keeps its zero-initialized score with only the not-reachable note, every
group total is 0, and the reported lab total is 0 — and the run still
produces its report (the embedding is total). -/
theorem discovery_null_all_zero (e : GradeEnv)
    (h : findBaseUrl e.discovery e.detectedPort = none) :
    (gradeRun e).scores =
      ({ makeTodoScore with notes := ["Server not reachable; cannot run endpoint checks."] },
       { makeTodoScore with notes := ["Server not reachable."] },
       { makeTodoScore with notes := ["Server not reachable."] },
       { makeTodoScore with notes := ["Server not reachable."] },
       { makeTodoScore with notes := ["Server not reachable."] }) ∧
    (gradeRun e).report.p1 = 0 ∧ (gradeRun e).report.p2 = 0 ∧
    (gradeRun e).report.p3 = 0 ∧ (gradeRun e).report.p4 = 0 ∧
    (gradeRun e).report.p5 = 0 ∧ (gradeRun e).report.lab_points = 0 := by
  refine ⟨?_, ?_, ?_, ?_, ?_, ?_, ?_⟩
  all_goals simp only [gradeRun, h, mainScores]
  all_goals decide

/-- Witness for C5: the fully dead environment yields a zero-point lab
total and the not-reachable note on the first group. -/
theorem discovery_null_all_zero_spot :
    (gradeRun envZero).report.lab_points = 0 ∧
    (gradeRun envZero).scores.1.notes =
      ["Server not reachable; cannot run endpoint checks."] := by
  have h : findBaseUrl envZero.discovery envZero.detectedPort = none := by decide
  have hall := discovery_null_all_zero envZero h
  exact ⟨hall.2.2.2.2.2.2, by rw [hall.1]⟩

/-- C8: the launcher tries its strategies in fixed priority order and stops
at the first that applies: first existing ranked entry file (with nothing
earlier in the ranking existing), else a declared start script, else the
hardcoded `server.js`, else a null child with the terminal
`(no entry found)` command and no spawn. -/
theorem launch_priority_order (d : LabDir) :
    (∀ e, ENTRY_CANDIDATES.find? d.fileExists = some e →
       startStudentApp d =
         { child := some (SpawnCmd.node e), usedCommand := "node " ++ e } ∧
       d.fileExists e = true ∧
       ∃ l1 l2, ENTRY_CANDIDATES = l1 ++ e :: l2 ∧ ∀ q ∈ l1, d.fileExists q = false) ∧
    (ENTRY_CANDIDATES.find? d.fileExists = none → hasStart d = true →
       startStudentApp d = { child := some SpawnCmd.npmStart, usedCommand := "npm start" }) ∧
    (ENTRY_CANDIDATES.find? d.fileExists = none → hasStart d = false →
       d.fileExists "server.js" = true →
       startStudentApp d =
         { child := some (SpawnCmd.node "server.js"), usedCommand := "node server.js" }) ∧
    (ENTRY_CANDIDATES.find? d.fileExists = none → hasStart d = false →
       d.fileExists "server.js" = false →
       startStudentApp d = { child := none, usedCommand := "(no entry found)" }) := by
  refine ⟨?_, ?_, ?_, ?_⟩
  · intro e he
    obtain ⟨hp, l1, l2, hl, hall⟩ := find_first_split d.fileExists ENTRY_CANDIDATES e he
    refine ⟨?_, hp, l1, l2, hl, hall⟩
    unfold startStudentApp
    rw [he]
  · intro hn hs
    unfold startStudentApp
    rw [hn]
    simp [hs]
  · intro hn hs hsj
    unfold startStudentApp
    rw [hn]
    simp [hs, hsj]
  · intro hn hs hsj
    unfold startStudentApp
    rw [hn]
    simp [hs, hsj]

/-- Witness for C8: strategy 1 fires on a directory with only `app.js`,
strategy 2 on one with only a start script, and strategy 4 on an empty
directory. -/
theorem launch_priority_order_spot :
    startStudentApp labAppOnly =
      { child := some (SpawnCmd.node "app.js"), usedCommand := "node app.js" } ∧
    startStudentApp labStartOnly =
      { child := some SpawnCmd.npmStart, usedCommand := "npm start" } ∧
    startStudentApp labEmpty = { child := none, usedCommand := "(no entry found)" } := by
  refine ⟨((launch_priority_order labAppOnly).1 "app.js" (by decide)).1,
          (launch_priority_order labStartOnly).2.1 (by decide) (by decide),
          (launch_priority_order labEmpty).2.2.2 (by decide) (by decide) (by decide)⟩

/-- C9: whenever a child was spawned (posix, truthy pid), the run's
termination step signals the process group and then the pid directly, in
that order; the trace is unchanged by either signal failing (each failure
is swallowed) and by whatever discovery and probing observed; and when no
child was spawned the cleanup step still runs, sending nothing. -/
theorem termination_always_attempted (e : GradeEnv) (c : SpawnCmd)
    (h1 : (startStudentApp e.lab).child = some c) (h2 : e.isWin = false)
    (h3 : e.childPid ≠ 0) :
    (gradeRun e).killTrace =
      [KillAttempt.killGroup e.childPid, KillAttempt.killPid e.childPid] ∧
    (∀ gf pf : Bool,
       (gradeRun { e with killGroupFails := gf, killPidFails := pf }).killTrace =
         [KillAttempt.killGroup e.childPid, KillAttempt.killPid e.childPid]) ∧
    (∀ (denv : DiscoveryEnv) (dp : Option Nat) (pr : ProbeEnv),
       (gradeRun { e with discovery := denv, detectedPort := dp, probes := pr }).killTrace =
         [KillAttempt.killGroup e.childPid, KillAttempt.killPid e.childPid]) ∧
    (∀ e2 : GradeEnv, (startStudentApp e2.lab).child = none →
       (gradeRun e2).killTrace = []) := by
  have hck : ∀ gf pf : Bool,
      cleanupKills (startStudentApp e.lab).child e.childPid e.isWin gf pf =
        [KillAttempt.killGroup e.childPid, KillAttempt.killPid e.childPid] := by
    intro gf pf
    rw [h1, h2]
    unfold cleanupKills tryKillSwallow
    simp [h3]
  refine ⟨?_, ?_, ?_, ?_⟩
  · simpa only [gradeRun] using hck e.killGroupFails e.killPidFails
  · intro gf pf
    simpa only [gradeRun] using hck gf pf
  · intro denv dp pr
    simpa only [gradeRun] using hck e.killGroupFails e.killPidFails
  · intro e2 hnone
    simp [gradeRun, cleanupKills, hnone]

/-- Witness for C9: the run that launched `server.js` with pid 7 attempts
the group signal and then the direct signal. -/
theorem termination_always_attempted_spot :
    (gradeRun envServerRun).killTrace =
      [KillAttempt.killGroup 7, KillAttempt.killPid 7] :=
  (termination_always_attempted envServerRun (SpawnCmd.node "server.js")
    (by decide) rfl (by decide)).1

/-- C10: the last-resort `node server.js` branch is dead code: `server.js`
heads the ranked list, so when the ranked lookup finds nothing its
existence check must fail, and without a start script the launcher returns
a null child and spawns nothing. -/
theorem last_resort_branch_dead (d : LabDir)
    (h : ENTRY_CANDIDATES.find? d.fileExists = none) :
    d.fileExists "server.js" = false ∧
    (hasStart d = false →
       startStudentApp d = { child := none, usedCommand := "(no entry found)" }) := by
  have hall : ∀ q ∈ ENTRY_CANDIDATES, d.fileExists q = false := by
    intro q hq
    simpa using List.find?_eq_none.mp h q hq
  have hs : d.fileExists "server.js" = false := hall "server.js" (by decide)
  refine ⟨hs, fun hst => ?_⟩
  unfold startStudentApp
  rw [h]
  simp [hst, hs]

/-- Witness for C10: in the empty lab directory the ranked lookup fails,
`server.js` does not exist, and the launcher returns a null child. -/
theorem last_resort_branch_dead_spot :
    labEmpty.fileExists "server.js" = false ∧
    startStudentApp labEmpty = { child := none, usedCommand := "(no entry found)" } :=
  ⟨(last_resort_branch_dead labEmpty (by decide)).1,
   (last_resort_branch_dead labEmpty (by decide)).2 rfl⟩

end Grade
